import Mathlib

/-!
Verification of the SnowRail payment-validation and payroll-orchestration
pipeline: a shallow embedding of the x402 payment validator
(src/backend/src/x402, src/unnamed/part_008), the facilitator /validate
endpoint (src/backend/src/x402/facilitatorServer.ts), the integrated payment
route (src/unnamed/part_007) and the demo payroll pipeline
(src/backend/src/services/payrollService.ts), together with theorems about
their status transitions, error handling and response computation.

External effects (database writes, chain calls, the rail service, the
settlement facilitator) are modelled by explicit environment records that fix
the outcome of each call; exceptions are modelled as `Option`/sum outcomes.
-/

namespace SnowRail

/-- Status values stored in the free-text `status` columns of the Payroll and
OutboundPayment tables (domain/payroll and domain/payment constants used by the
pipelines). -/
inductive Status
  | PENDING
  | ONCHAIN_REQUESTED
  | ONCHAIN_PAID
  | RAIL_PROCESSING
  | PAID
  | FAILED
deriving DecidableEq, Repr

/-- JavaScript truthiness of an optional string (undefined and "" are falsy). -/
def jsTruthy : Option String → Bool
  | none => false
  | some s => s ≠ ""

/-- JavaScript `a || b` on optional strings, as used for
`paymentRequest.rail?.source_account_id || process.env.RAIL_SOURCE_ACCOUNT_ID`. -/
def jsOr (a b : Option String) : Option String :=
  if jsTruthy a then a else b

/-- One meter of the catalog consulted through `getMeter`
(src/backend/src/x402/metering.ts). Only resolution (found / not found)
drives the control flow verified here. -/
structure Meter where
  id : String
  price : String
  asset : String
  chain : String
  description : String
deriving DecidableEq, Repr

/-- Configuration read by the x402 validator (src/unnamed/part_008):
whether NODE_ENV is "production", whether `config.x402FacilitatorUrl`
contains "mock", and the `config.x402AllowDemoToken` flag. -/
structure X402Config where
  nodeEnvProduction : Bool
  facilitatorUrlMock : Bool
  allowDemoTokenFlag : Bool
deriving DecidableEq, Repr

/-- `allowDemoToken = config.x402AllowDemoToken || isDevelopment ||
isMockFacilitator` (src/unnamed/part_008 lines 33-35). -/
def allowDemoToken (cfg : X402Config) : Bool :=
  cfg.allowDemoTokenFlag || !cfg.nodeEnvProduction || cfg.facilitatorUrlMock

/-- Result returned by `validateWithFacilitator` when the call does not throw. -/
structure FacResult where
  valid : Bool
  payer : Option String
  amount : Option String
  error : Option String
deriving DecidableEq, Repr

/-- Outcome of the one outbound call to the settlement facilitator:
either a returned result or a thrown transport/verification error. -/
inductive FacCall
  | ok (r : FacResult)
  | threw (msg : String)
deriving DecidableEq, Repr

/-- Result of `validateXPaymentHeader` together with whether the facilitator
network call was made. -/
structure HeaderValidation where
  valid : Bool
  facilitatorCalled : Bool
deriving DecidableEq, Repr

/-- `validateXPaymentHeader` (src/unnamed/part_008 lines 26-87): demo-token
short-circuit under `allowDemoToken`, meter lookup, facilitator delegation,
demo-token fallback on failed validation and on a thrown facilitator error. -/
def validateXPaymentHeader (cfg : X402Config) (reg : String → Option Meter)
    (fac : FacCall) (headerValue meterId : String) : HeaderValidation :=
  let allow := allowDemoToken cfg
  if headerValue = "demo-token" && allow then
    { valid := true, facilitatorCalled := false }
  else
    match reg meterId with
    | none =>
      if headerValue = "demo-token" && allow then
        { valid := true, facilitatorCalled := false }
      else
        { valid := false, facilitatorCalled := false }
    | some _ =>
      match fac with
      | .ok r =>
        if r.valid then
          { valid := true, facilitatorCalled := true }
        else if headerValue = "demo-token" && allow then
          { valid := true, facilitatorCalled := true }
        else
          { valid := false, facilitatorCalled := true }
      | .threw _ =>
        if headerValue = "demo-token" && allow then
          { valid := true, facilitatorCalled := true }
        else
          { valid := false, facilitatorCalled := true }

/-- The `ValidationResult` type of src/unnamed/part_008 (facilitatorResponse
omitted: it is opaque to every property verified here). -/
structure ValidationResult where
  valid : Bool
  error : Option String
  payer : Option String
  amount : Option String
deriving DecidableEq, Repr

/-- Result of `validatePaymentDetailed` together with whether the facilitator
network call was made. -/
structure DetailedValidation where
  result : ValidationResult
  facilitatorCalled : Bool
deriving DecidableEq, Repr

/-- `validatePaymentDetailed` (src/unnamed/part_008 lines 95-145): demo-token
short-circuit only under the mock-facilitator condition, METER_NOT_FOUND on a
failed meter lookup, facilitator delegation, and a catch that degrades to
valid whenever the header is "demo-token". -/
def validatePaymentDetailed (cfg : X402Config) (reg : String → Option Meter)
    (fac : FacCall) (headerValue meterId : String) : DetailedValidation :=
  if headerValue = "demo-token" && cfg.facilitatorUrlMock then
    { result := { valid := true, error := none,
                  payer := some "0xDemoPayerAddress", amount := some "1" },
      facilitatorCalled := false }
  else
    match reg meterId with
    | none =>
      { result := { valid := false, error := some "METER_NOT_FOUND",
                    payer := none, amount := none },
        facilitatorCalled := false }
    | some _ =>
      match fac with
      | .ok r =>
        { result := { valid := r.valid, error := r.error,
                      payer := r.payer, amount := r.amount },
          facilitatorCalled := true }
      | .threw msg =>
        if headerValue = "demo-token" then
          { result := { valid := true, error := none,
                        payer := some "0xDemoPayerAddress", amount := some "1" },
            facilitatorCalled := true }
        else
          { result := { valid := false, error := some msg,
                        payer := none, amount := none },
            facilitatorCalled := true }

/-- Result returned by the Thirdweb facilitator `verify` call when it does not
throw (src/backend/src/x402/facilitatorServer.ts). -/
structure VerifyResult where
  isValid : Bool
  payer : Option String
  invalidReason : Option String
deriving DecidableEq, Repr

/-- Outcome of the Thirdweb `verify` call: result or thrown error. -/
inductive VerifyCall
  | ok (r : VerifyResult)
  | threw (msg : String)
deriving DecidableEq, Repr

/-- Environment of one request to the facilitator POST /validate endpoint:
whether JSON.parse of a string proof succeeds, whether a server wallet address
is configured, whether `getThirdwebFacilitator` initializes, and the verify
outcome. -/
structure ValidateEndpointEnv where
  proofParses : Bool
  payToConfigured : Bool
  facilitatorInitOk : Bool
  verify : VerifyCall
deriving DecidableEq, Repr

/-- HTTP response of the /validate endpoint, plus whether the Thirdweb verify
call was reached. -/
structure EndpointResponse where
  status : Nat
  valid : Bool
  error : Option String
  verifyCalled : Bool
deriving DecidableEq, Repr

/-- POST /validate handler of `createFacilitatorRouter`
(src/backend/src/x402/facilitatorServer.ts lines 116-203): the meter lookup
comes first; a missing meter answers 400 METER_NOT_FOUND before any parsing,
configuration access or facilitator call. -/
def validateEndpoint (env : ValidateEndpointEnv) (reg : String → Option Meter)
    (meterId : String) : EndpointResponse :=
  match reg meterId with
  | none =>
    { status := 400, valid := false, error := some "METER_NOT_FOUND",
      verifyCalled := false }
  | some _ =>
    if !env.proofParses then
      { status := 500, valid := false, error := some "VALIDATION_ERROR",
        verifyCalled := false }
    else if !env.payToConfigured then
      { status := 500, valid := false, error := some "CONFIGURATION_ERROR",
        verifyCalled := false }
    else if !env.facilitatorInitOk then
      { status := 500, valid := false, error := some "VALIDATION_ERROR",
        verifyCalled := false }
    else
      match env.verify with
      | .threw _ =>
        { status := 500, valid := false, error := some "VALIDATION_ERROR",
          verifyCalled := true }
      | .ok r =>
        if r.isValid then
          { status := 200, valid := true, error := none, verifyCalled := true }
        else
          { status := 402, valid := false,
            error := some (r.invalidReason.getD "VALIDATION_FAILED"),
            verifyCalled := true }

/-- Customer part of the integrated payment request body
(src/unnamed/part_007, type PaymentRequest). Only the fields the handler
inspects are carried. -/
structure Customer where
  first_name : String
  last_name : String
  email_address : String
deriving DecidableEq, Repr

/-- Payment part of the integrated payment request body. -/
structure PaymentInfo where
  amount : Int
  currency : Option String
  recipient : Option String
deriving DecidableEq, Repr

/-- Optional rail overrides of the integrated payment request body. -/
structure RailOptions where
  source_account_id : Option String
  counterparty_id : Option String
deriving DecidableEq, Repr

/-- The integrated payment request body (src/unnamed/part_007 lines 28-56);
`customer` and `payment` are optional because the handler checks their
presence at runtime. -/
structure PaymentRequest where
  customer : Option Customer
  payment : Option PaymentInfo
  rail : Option RailOptions
deriving DecidableEq, Repr

/-- Persisted state of one payroll: the Payroll row status and the common
status of its batch-created OutboundPayment rows (`none` before the payment
rows are created). -/
structure DbState where
  payroll : Status
  payments : Option Status
deriving DecidableEq, Repr

/-- `prisma.payroll.update({data: {status}})`. -/
def setPayrollStatus (s : Status) (db : DbState) : DbState :=
  { db with payroll := s }

/-- Modelled from the spec: `updatePayrollPaymentsStatus` of
src/backend/src/services/paymentService.ts is not under src/ (only its
callers are). Per spec section 3, the pipeline "updates all Payments of a
payroll atomically with the payroll's own status change", so it sets every
payment row of the payroll to the given status. -/
def updatePayrollPaymentsStatus (s : Status) (db : DbState) : DbState :=
  { db with payments := db.payments.map fun _ => s }

/-- Modelled from the spec: `requestPayrollPayments` of
src/backend/src/services/contractHook.ts is not under src/ (only its callers
are). Per spec section 4.5 (state PENDING to ONCHAIN_REQUESTED, payments
driven in lockstep) and the payment-flow document ("Update payment status:
ONCHAIN_REQUESTED"), a successful request call registers the on-chain payment
requests, returns their transaction hashes and moves the payroll and its
payments to ONCHAIN_REQUESTED; a failed call throws without a status write. -/
def requestPayrollPayments (result : Option (List String)) (db : DbState) :
    Option (List String × DbState) :=
  match result with
  | none => none
  | some hs =>
    some (hs, updatePayrollPaymentsStatus .ONCHAIN_REQUESTED
      (setPayrollStatus .ONCHAIN_REQUESTED db))

/-- Modelled from the spec: `executePayrollPayments` of
src/backend/src/services/contractHook.ts is not under src/ (only its callers
are). Per spec section 4.5 step 4 ("Success implies immediately set
Payroll/Payments to ONCHAIN_PAID") and the payment-flow document ("Update
payment status: ONCHAIN_PAID"), a successful execute call returns the
transaction hashes and moves the payroll and its payments to ONCHAIN_PAID;
a failed call throws without a status write. -/
def executePayrollPayments (result : Option (List String)) (db : DbState) :
    Option (List String × DbState) :=
  match result with
  | none => none
  | some hs =>
    some (hs, updatePayrollPaymentsStatus .ONCHAIN_PAID
      (setPayrollStatus .ONCHAIN_PAID db))

/-- Step completion map of the integrated route (src/unnamed/part_007
lines 105-112). -/
structure Steps where
  payroll_created : Bool
  payments_created : Bool
  treasury_checked : Bool
  onchain_requested : Bool
  onchain_executed : Bool
  rail_processed : Bool
deriving DecidableEq, Repr

/-- All six step flags start false. -/
def Steps.init : Steps :=
  { payroll_created := false, payments_created := false,
    treasury_checked := false, onchain_requested := false,
    onchain_executed := false, rail_processed := false }

/-- One entry of the accumulated errors array: either an entry recording a
thrown step error (identified by its step name, the message being the opaque
exception text), or the literal skip entry pushed when the rail accounts are
not configured (step "rail_processed", message "Rail accounts not
configured. Payment was processed on-chain but not through Rail."). -/
inductive StepErr
  | exn (step : String)
  | railNotConfigured
deriving DecidableEq, Repr

/-- Step name under which an errors-array entry is recorded. -/
def StepErr.stepName : StepErr → String
  | .exn s => s
  | .railNotConfigured => "rail_processed"

/-- External calls the pipelines can make, in the order they appear in a
run's trace. -/
inductive ExtCall
  | treasuryCheck
  | requestPayments
  | executePayments
  | railCreate
deriving DecidableEq, Repr

/-- Result of `createRailPayment` when the call does not throw. -/
structure RailPaymentResult where
  id : String
  status : String
deriving DecidableEq, Repr

/-- Environment fixing the outcome of every fallible call of one run of the
integrated payment route: database creation outcomes, the treasury read,
the two chain calls (`none` = throws), the RAIL_* environment variables,
the rail call (`none` = throws) and whether the final
`prisma.payroll.findUnique` read succeeds (`false` = an unhandled exception
after the rail step that reaches the outer catch). -/
structure RouteEnv where
  createPayrollOk : Bool
  createPaymentsOk : Bool
  treasuryOk : Bool
  requestResult : Option (List String)
  executeResult : Option (List String)
  railSourceEnv : Option String
  railCounterpartyEnv : Option String
  railCreate : Option RailPaymentResult
  finalReadOk : Bool
deriving DecidableEq, Repr

/-- Whether the rail source account and counterparty resolve
(src/unnamed/part_007 lines 272-275): request override `||` environment
variable, JavaScript truthiness. -/
def railConfigured (env : RouteEnv) (pr : PaymentRequest) : Bool :=
  jsTruthy (jsOr (pr.rail.bind RailOptions.source_account_id) env.railSourceEnv) &&
  jsTruthy (jsOr (pr.rail.bind RailOptions.counterparty_id) env.railCounterpartyEnv)

/-- Intermediate state of one route run after the payroll and payment rows
exist: step flags, accumulated errors, database state, recorded transaction
hashes, the rail result if one was returned, and the trace of external calls
made so far. -/
structure MidState where
  steps : Steps
  errors : List StepErr
  db : DbState
  requestTxs : Option (List String)
  executeTxs : Option (List String)
  railInfo : Option RailPaymentResult
  trace : List ExtCall
deriving DecidableEq, Repr

/-- State right after steps 1 and 2 of the route succeeded: payroll and
payment rows created with status PENDING, both creation flags set. -/
def afterCreate : MidState :=
  { steps := { Steps.init with payroll_created := true, payments_created := true },
    errors := [], db := { payroll := .PENDING, payments := some .PENDING },
    requestTxs := none, executeTxs := none, railInfo := none, trace := [] }

/-- Step 3 of the route (src/unnamed/part_007 lines 220-239): the treasury
balance read; a failure is recorded and swallowed, the balance value itself
only feeds logging. -/
def treasuryStep (env : RouteEnv) (s : MidState) : MidState :=
  if env.treasuryOk then
    { s with steps := { s.steps with treasury_checked := true },
             trace := s.trace ++ [.treasuryCheck] }
  else
    { s with errors := s.errors ++ [.exn "treasury_checked"],
             trace := s.trace ++ [.treasuryCheck] }

/-- Step 4 of the route (src/unnamed/part_007 lines 241-253): request the
payments on-chain; failure is recorded and the run continues. -/
def requestStep (env : RouteEnv) (s : MidState) : MidState :=
  match requestPayrollPayments env.requestResult s.db with
  | some (hs, db2) =>
    { s with steps := { s.steps with onchain_requested := true },
             requestTxs := some hs, db := db2,
             trace := s.trace ++ [.requestPayments] }
  | none =>
    { s with errors := s.errors ++ [.exn "onchain_requested"],
             trace := s.trace ++ [.requestPayments] }

/-- Step 5 of the route (src/unnamed/part_007 lines 255-267): execute the
payments on-chain; failure is recorded and the run continues. -/
def executeStep (env : RouteEnv) (s : MidState) : MidState :=
  match executePayrollPayments env.executeResult s.db with
  | some (hs, db2) =>
    { s with steps := { s.steps with onchain_executed := true },
             executeTxs := some hs, db := db2,
             trace := s.trace ++ [.executePayments] }
  | none =>
    { s with errors := s.errors ++ [.exn "onchain_executed"],
             trace := s.trace ++ [.executePayments] }

/-- Final status computed from the rail result (src/unnamed/part_007
lines 306-334): PAID wins; a FAILED rail result downgrades to FAILED only
when on-chain execution did not complete; any other rail status keeps
ONCHAIN_PAID when on-chain completed and RAIL_PROCESSING otherwise. -/
def railFinalStatus (railStatus : String) (onchainExecuted : Bool) : Status :=
  if railStatus = "PAID" then .PAID
  else if railStatus = "FAILED" then
    (if onchainExecuted then .ONCHAIN_PAID else .FAILED)
  else
    (if onchainExecuted then .ONCHAIN_PAID else .RAIL_PROCESSING)

/-- Step 6 of the route (src/unnamed/part_007 lines 269-351): if the rail
accounts are not configured, push the skip entry and leave every status
unchanged; otherwise move payroll and payments to RAIL_PROCESSING, call
`createRailPayment`, and on a returned result write the final status to
payroll and payments; a thrown rail error is caught, recorded, and leaves
the RAIL_PROCESSING statuses in place. -/
def railStep (env : RouteEnv) (pr : PaymentRequest) (s : MidState) : MidState :=
  if !railConfigured env pr then
    { s with errors := s.errors ++ [.railNotConfigured] }
  else
    let dbA := updatePayrollPaymentsStatus .RAIL_PROCESSING
      (setPayrollStatus .RAIL_PROCESSING s.db)
    match env.railCreate with
    | none =>
      { s with db := dbA, errors := s.errors ++ [.exn "rail_processed"],
               trace := s.trace ++ [.railCreate] }
    | some rr =>
      let fin := railFinalStatus rr.status s.steps.onchain_executed
      { s with db := updatePayrollPaymentsStatus fin (setPayrollStatus fin dbA),
               steps := { s.steps with rail_processed := true },
               railInfo := some rr,
               trace := s.trace ++ [.railCreate] }

/-- Pipeline state after steps 3-5 of the route, i.e. the state the rail step
starts from. -/
def routeAfterExecute (env : RouteEnv) : MidState :=
  executeStep env (requestStep env (treasuryStep env afterCreate))

/-- HTTP responses of the integrated payment route: 400 on body validation,
200 with the PaymentResponse fields, or the outer catch's 500 with the step
map and accumulated errors. The 200 `errors` field is `none` when the
accumulated list is empty, mirroring `errors.length > 0 ? errors :
undefined`; the 500 list defaults to a single "unknown" entry when empty. -/
inductive RouteResponse
  | badRequest
  | ok (success : Bool) (status : Status) (steps : Steps)
       (errors : Option (List StepErr))
       (requestTxs executeTxs : Option (List String))
       (railStatus : Option String)
  | serverError (steps : Steps) (errors : List StepErr)
deriving DecidableEq, Repr

/-- Full outcome of one route run: the HTTP response, the database state the
run leaves behind (`none` when the payroll row was never created), and the
trace of external calls made. -/
structure RouteResult where
  response : RouteResponse
  db : Option DbState
  trace : List ExtCall
deriving DecidableEq, Repr

/-- Final read and response of the route (src/unnamed/part_007 lines
353-415): read back the payroll, compute `success` as onchain_executed OR
rail_processed OR (onchain_requested AND no accumulated errors), and answer
200; if the read throws, the outer catch marks the payroll FAILED (payments
untouched) and answers 500. -/
def finalizeRoute (env : RouteEnv) (s : MidState) : RouteResult :=
  if env.finalReadOk then
    let isSuccess := s.steps.onchain_executed || s.steps.rail_processed ||
      (s.steps.onchain_requested && s.errors.isEmpty)
    { response := .ok isSuccess s.db.payroll s.steps
        (if s.errors.isEmpty then none else some s.errors)
        s.requestTxs s.executeTxs (s.railInfo.map RailPaymentResult.status),
      db := some s.db, trace := s.trace }
  else
    { response := .serverError s.steps
        (if s.errors.isEmpty then [.exn "unknown"] else s.errors),
      db := some (setPayrollStatus .FAILED s.db), trace := s.trace }

/-- Body validation of the route handler (src/unnamed/part_007 lines
136-178): body, customer and payment present, customer names truthy, amount
truthy and positive. -/
def validBody : Option PaymentRequest → Bool
  | none => false
  | some pr =>
    match pr.customer, pr.payment with
    | some c, some p =>
      !(c.first_name = "" || c.last_name = "") && decide (0 < p.amount)
    | _, _ => false

/-- The POST /api/payment/process handler registered by
`registerPaymentRoutes` (src/unnamed/part_007 lines 96-417): body
validation, payroll and payment creation (a creation failure throws to the
outer catch, which marks the payroll FAILED only if it was created), then
the treasury, request, execute and rail steps, then the final read and
response. -/
def processPaymentHandler (env : RouteEnv) (body : Option PaymentRequest) :
    RouteResult :=
  match body with
  | none => { response := .badRequest, db := none, trace := [] }
  | some pr =>
    match pr.customer, pr.payment with
    | none, _ => { response := .badRequest, db := none, trace := [] }
    | some _, none => { response := .badRequest, db := none, trace := [] }
    | some c, some p =>
      if c.first_name = "" || c.last_name = "" then
        { response := .badRequest, db := none, trace := [] }
      else if p.amount ≤ 0 then
        { response := .badRequest, db := none, trace := [] }
      else if !env.createPayrollOk then
        { response := .serverError Steps.init [.exn "payroll_created"],
          db := none, trace := [] }
      else if !env.createPaymentsOk then
        { response := .serverError
            { Steps.init with payroll_created := true } [.exn "payments_created"],
          db := some { payroll := .FAILED, payments := none }, trace := [] }
      else
        finalizeRoute env (railStep env pr (routeAfterExecute env))

/-- Environment fixing the outcome of every fallible call of one run of
`executePayrollDemo`: the treasury read, the two chain calls (`none` =
throws) and the rail call (`none` = throws). Payroll and payment creation
have no handler in the demo pipeline (their errors propagate unchanged), so
they are taken as succeeding. -/
structure DemoEnv where
  treasuryOk : Bool
  requestResult : Option (List String)
  executeResult : Option (List String)
  railCreate : Option RailPaymentResult
deriving DecidableEq, Repr

/-- Outcome of one `executePayrollDemo` run: whether the function threw (the
rethrown request-step failure is its only uncaught error after creation),
the database state left behind, and the trace of external calls. -/
structure DemoResult where
  aborted : Bool
  db : DbState
  trace : List ExtCall
deriving DecidableEq, Repr

/-- Execute phase of `executePayrollDemo`
(src/backend/src/services/payrollService.ts lines 86-106): on a successful
execute call, `onchainSuccess` is whether any hashes came back, and if so the
payroll and payments are set to ONCHAIN_PAID; a thrown execute error is
caught and the run continues with `onchainSuccess` false. -/
def demoExecutePhase (env : DemoEnv) (db1 : DbState) : Bool × DbState :=
  match executePayrollPayments env.executeResult db1 with
  | none => (false, db1)
  | some (hs, db2) =>
    let onchainSuccess := !hs.isEmpty
    (onchainSuccess,
      if onchainSuccess then
        updatePayrollPaymentsStatus .ONCHAIN_PAID
          (setPayrollStatus .ONCHAIN_PAID db2)
      else db2)

/-- Rail phase of `executePayrollDemo`
(src/backend/src/services/payrollService.ts lines 108-192): move to
RAIL_PROCESSING only when on-chain succeeded, call `createRailPayment`
(a thrown error is caught and leaves the statuses in place), and on a
returned result write PAID when the rail reports PAID, ONCHAIN_PAID when
on-chain succeeded, and FAILED otherwise. The Arweave receipt step only logs
and is omitted. -/
def demoRailPhase (env : DemoEnv) (onchainSuccess : Bool) (db : DbState)
    (trace : List ExtCall) : DemoResult :=
  let dbA :=
    if onchainSuccess then
      updatePayrollPaymentsStatus .RAIL_PROCESSING
        (setPayrollStatus .RAIL_PROCESSING db)
    else db
  match env.railCreate with
  | none => { aborted := false, db := dbA, trace := trace ++ [.railCreate] }
  | some rr =>
    let fin : Status :=
      if rr.status = "PAID" then .PAID
      else if onchainSuccess then .ONCHAIN_PAID
      else .FAILED
    { aborted := false,
      db := updatePayrollPaymentsStatus fin (setPayrollStatus fin dbA),
      trace := trace ++ [.railCreate] }

/-- `executePayrollDemo` (src/backend/src/services/payrollService.ts lines
45-195): create the payroll and its payments as PENDING, read the treasury
balance (failure swallowed), request on-chain (failure rethrown, aborting
the run), then the execute and rail phases. -/
def executePayrollDemo (env : DemoEnv) : DemoResult :=
  let db0 : DbState := { payroll := .PENDING, payments := some .PENDING }
  match requestPayrollPayments env.requestResult db0 with
  | none =>
    { aborted := true, db := db0, trace := [.treasuryCheck, .requestPayments] }
  | some (_, db1) =>
    let r := demoExecutePhase env db1
    demoRailPhase env r.1 r.2
      [.treasuryCheck, .requestPayments, .executePayments]

/-- Modelled from the spec: the HTTP route that invokes `executePayrollDemo`
is not under src/ (only the service is). Per spec section 4.5 step 7, any
unhandled exception reaching the top of the pipeline after payroll creation
is caught and the payroll status is set to FAILED (best-effort), so the
route wrapper marks the payroll FAILED when the service threw. -/
def runPayrollDemoRoute (env : DemoEnv) : DemoResult :=
  let r := executePayrollDemo env
  if r.aborted then { r with db := setPayrollStatus .FAILED r.db } else r

/-- Whether a route response is the 200 response. -/
def RouteResponse.isOk : RouteResponse → Bool
  | .ok _ _ _ _ _ _ _ => true
  | _ => false

/-! Helper lemmas shared by the claim theorems. -/

/-- The treasury, request and execute steps always run, in this order, before
the rail step. -/
theorem routeAfterExecute_trace (env : RouteEnv) :
    (routeAfterExecute env).trace =
      [.treasuryCheck, .requestPayments, .executePayments] := by
  unfold routeAfterExecute executeStep requestStep treasuryStep afterCreate
    executePayrollPayments requestPayrollPayments
  cases env.requestResult <;> cases env.executeResult <;>
    cases env.treasuryOk <;> simp

/-- The on-chain-executed flag after step 5 records exactly whether the
execute call returned. -/
theorem routeAfterExecute_onchain_executed (env : RouteEnv) :
    (routeAfterExecute env).steps.onchain_executed = env.executeResult.isSome := by
  unfold routeAfterExecute executeStep requestStep treasuryStep afterCreate
    executePayrollPayments requestPayrollPayments
  cases env.requestResult <;> cases env.executeResult <;>
    cases env.treasuryOk <;> simp [Steps.init]

/-- After a successful execute call the payroll and its payments are both at
ONCHAIN_PAID in the state the rail step receives. -/
theorem routeAfterExecute_db_of_exec (env : RouteEnv) (hs : List String)
    (h : env.executeResult = some hs) :
    (routeAfterExecute env).db =
      { payroll := .ONCHAIN_PAID, payments := some .ONCHAIN_PAID } := by
  unfold routeAfterExecute executeStep requestStep treasuryStep afterCreate
    executePayrollPayments requestPayrollPayments updatePayrollPaymentsStatus
    setPayrollStatus
  cases env.requestResult <;> cases env.treasuryOk <;> simp [h]

/-- The rail step does not change the on-chain step flags. -/
theorem railStep_onchain_executed (env : RouteEnv) (pr : PaymentRequest)
    (s : MidState) :
    (railStep env pr s).steps.onchain_executed = s.steps.onchain_executed := by
  unfold railStep
  cases hc : railConfigured env pr <;> cases env.railCreate <;> simp

/-- The treasury step does not touch the database. -/
theorem treasuryStep_db (env : RouteEnv) (s : MidState) :
    (treasuryStep env s).db = s.db := by
  unfold treasuryStep
  cases env.treasuryOk <;> simp

/-- The request step keeps the payments in lockstep with the payroll. -/
theorem requestStep_lockstep (env : RouteEnv) (s : MidState)
    (h : s.db.payments = some s.db.payroll) :
    (requestStep env s).db.payments = some (requestStep env s).db.payroll := by
  unfold requestStep requestPayrollPayments updatePayrollPaymentsStatus
    setPayrollStatus
  cases env.requestResult <;> simp [h]

/-- The execute step keeps the payments in lockstep with the payroll. -/
theorem executeStep_lockstep (env : RouteEnv) (s : MidState)
    (h : s.db.payments = some s.db.payroll) :
    (executeStep env s).db.payments = some (executeStep env s).db.payroll := by
  unfold executeStep executePayrollPayments updatePayrollPaymentsStatus
    setPayrollStatus
  cases env.executeResult <;> simp [h]

/-- The rail step keeps the payments in lockstep with the payroll. -/
theorem railStep_lockstep (env : RouteEnv) (pr : PaymentRequest) (s : MidState)
    (h : s.db.payments = some s.db.payroll) :
    (railStep env pr s).db.payments = some (railStep env pr s).db.payroll := by
  unfold railStep updatePayrollPaymentsStatus setPayrollStatus
  cases railConfigured env pr <;> cases env.railCreate <;> simp [h]

/-- Payments stay in lockstep with the payroll through the whole pipeline:
the state the final read sees always has every payment row at the payroll's
status. -/
theorem midState_lockstep (env : RouteEnv) (pr : PaymentRequest) :
    (railStep env pr (routeAfterExecute env)).db.payments =
      some (railStep env pr (routeAfterExecute env)).db.payroll := by
  apply railStep_lockstep
  unfold routeAfterExecute
  apply executeStep_lockstep
  apply requestStep_lockstep
  rw [treasuryStep_db]
  rfl

/-- Status of the payroll the rail step hands to the final read, when the
execute call succeeded: ONCHAIN_PAID, PAID or RAIL_PROCESSING, never FAILED;
and when the rail call did not throw, only ONCHAIN_PAID or PAID. -/
theorem midState_status_of_exec (env : RouteEnv) (pr : PaymentRequest)
    (hs : List String) (h : env.executeResult = some hs) :
    ((railStep env pr (routeAfterExecute env)).db.payroll = .ONCHAIN_PAID ∨
     (railStep env pr (routeAfterExecute env)).db.payroll = .PAID ∨
     (railStep env pr (routeAfterExecute env)).db.payroll = .RAIL_PROCESSING) ∧
    (railStep env pr (routeAfterExecute env)).db.payroll ≠ .FAILED ∧
    (env.railCreate.isSome = true →
      (railStep env pr (routeAfterExecute env)).db.payroll = .ONCHAIN_PAID ∨
      (railStep env pr (routeAfterExecute env)).db.payroll = .PAID) := by
  have hdb := routeAfterExecute_db_of_exec env hs h
  have hex : (routeAfterExecute env).steps.onchain_executed = true := by
    rw [routeAfterExecute_onchain_executed, h]; rfl
  unfold railStep railFinalStatus updatePayrollPaymentsStatus setPayrollStatus
  cases railConfigured env pr <;> cases env.railCreate <;>
    simp [hdb, hex]
  case true.some rr =>
    by_cases hp : rr.status = "PAID" <;> by_cases hf : rr.status = "FAILED" <;>
      simp [hp, hf]

/-- A 200 response of the route can only arise from the final read
succeeding over the full pipeline state of a validated body. -/
theorem response_ok_inversion (env : RouteEnv) (body : Option PaymentRequest)
    {success : Bool} {status : Status} {steps : Steps}
    {errs : Option (List StepErr)} {rtx etx : Option (List String)}
    {rst : Option String}
    (h : (processPaymentHandler env body).response =
      .ok success status steps errs rtx etx rst) :
    ∃ pr, body = some pr ∧ env.finalReadOk = true ∧
      processPaymentHandler env body =
        finalizeRoute env (railStep env pr (routeAfterExecute env)) := by
  cases body with
  | none => simp [processPaymentHandler] at h
  | some pr =>
    refine ⟨pr, rfl, ?_⟩
    rcases hcu : pr.customer with _ | c
    · simp [processPaymentHandler, hcu] at h
    rcases hpa : pr.payment with _ | p
    · simp [processPaymentHandler, hcu, hpa] at h
    by_cases h1 : c.first_name = ""
    · simp [processPaymentHandler, hcu, hpa, h1] at h
    by_cases h1b : c.last_name = ""
    · simp [processPaymentHandler, hcu, hpa, h1, h1b] at h
    by_cases h2 : p.amount ≤ 0
    · simp [processPaymentHandler, hcu, hpa, h1, h1b, h2] at h
    cases h3 : env.createPayrollOk
    · simp [processPaymentHandler, hcu, hpa, h1, h1b, h2, h3] at h
    cases h4 : env.createPaymentsOk
    · simp [processPaymentHandler, hcu, hpa, h1, h1b, h2, h3, h4] at h
    have heq : processPaymentHandler env (some pr) =
        finalizeRoute env (railStep env pr (routeAfterExecute env)) := by
      simp [processPaymentHandler, hcu, hpa, h1, h1b, h2, h3, h4]
    refine ⟨?_, heq⟩
    rw [heq] at h
    unfold finalizeRoute at h
    cases h5 : env.finalReadOk
    · simp [h5] at h
    · rfl

/-- The rail step is never reached inside steps 3-5, so its flag is still
false when the rail step starts. -/
theorem routeAfterExecute_rail_processed (env : RouteEnv) :
    (routeAfterExecute env).steps.rail_processed = false := by
  unfold routeAfterExecute executeStep requestStep treasuryStep afterCreate
    executePayrollPayments requestPayrollPayments
  cases env.requestResult <;> cases env.executeResult <;>
    cases env.treasuryOk <;> simp [Steps.init]

/-- With unresolved rail accounts the rail step only records the skip entry. -/
theorem railStep_skip (env : RouteEnv) (pr : PaymentRequest) (s : MidState)
    (hcfg : railConfigured env pr = false) :
    railStep env pr s = { s with errors := s.errors ++ [.railNotConfigured] } := by
  unfold railStep
  simp [hcfg]

/-- The request-completed flag after step 5 records exactly whether the
request call returned. -/
theorem routeAfterExecute_onchain_requested (env : RouteEnv) :
    (routeAfterExecute env).steps.onchain_requested = env.requestResult.isSome := by
  unfold routeAfterExecute executeStep requestStep treasuryStep afterCreate
    executePayrollPayments requestPayrollPayments
  cases env.requestResult <;> cases env.executeResult <;>
    cases env.treasuryOk <;> simp [Steps.init]

/-! Concrete fixtures used by counterexamples and witnesses. -/

/-- A well-formed integrated payment request body. -/
def sampleBody : PaymentRequest :=
  { customer := some { first_name := "Ada", last_name := "Lovelace",
                       email_address := "ada@example.com" },
    payment := some { amount := 50000, currency := some "USD", recipient := none },
    rail := none }

/-- Environment of a run where everything on-chain succeeds and the rail
accounts are not configured. -/
def railSkipEnv : RouteEnv :=
  { createPayrollOk := true, createPaymentsOk := true, treasuryOk := true,
    requestResult := some ["0xAAA"], executeResult := some ["0xBBB"],
    railSourceEnv := none, railCounterpartyEnv := none,
    railCreate := none, finalReadOk := true }

/-- Environment of a run where everything succeeds and the rail reports
PAID. -/
def railPaidEnv : RouteEnv :=
  { railSkipEnv with
    railSourceEnv := some "acct-1",
    railCounterpartyEnv := some "cp-1",
    railCreate := some { id := "wd-1", status := "PAID" } }

/-- Environment of a run where on-chain execution succeeds, the rail is not
configured, and the final payroll read throws (an unhandled exception after
execution). -/
def crashEnv : RouteEnv := { railSkipEnv with finalReadOk := false }

/-- Environment of a run where everything succeeds including a PAID rail
result, but the final payroll read throws. -/
def crashPaidEnv : RouteEnv := { railPaidEnv with finalReadOk := false }

/-! Claim theorems. -/

/-- C1 counterexample: with on-chain execution completed
(steps.onchain_executed = true in the 500 body) and an unhandled exception
after execution (the final payroll read throws), the outer catch marks the
payroll FAILED, so the final status is neither ONCHAIN_PAID nor PAID. -/
theorem c1_counterexample :
    (processPaymentHandler crashEnv (some sampleBody)).response =
      .serverError
        { payroll_created := true, payments_created := true,
          treasury_checked := true, onchain_requested := true,
          onchain_executed := true, rail_processed := false }
        [.railNotConfigured] ∧
    (processPaymentHandler crashEnv (some sampleBody)).db =
      some { payroll := .FAILED, payments := some .ONCHAIN_PAID } := by
  decide

/-- C1 (amended): for every run that reaches the 200 response (no unhandled
exception), onchain_executed = true implies the final status is ONCHAIN_PAID,
PAID or RAIL_PROCESSING and never FAILED; if moreover the rail call did not
throw, the final status is ONCHAIN_PAID or PAID. -/
theorem c1_amended (env : RouteEnv) (body : Option PaymentRequest)
    {success : Bool} {status : Status} {steps : Steps}
    {errs : Option (List StepErr)} {rtx etx : Option (List String)}
    {rst : Option String}
    (h : (processPaymentHandler env body).response =
      .ok success status steps errs rtx etx rst)
    (hexec : steps.onchain_executed = true) :
    (status = .ONCHAIN_PAID ∨ status = .PAID ∨ status = .RAIL_PROCESSING) ∧
    status ≠ .FAILED ∧
    (env.railCreate.isSome = true →
      status = .ONCHAIN_PAID ∨ status = .PAID) := by
  obtain ⟨pr, hbody, hread, heq⟩ := response_ok_inversion env body h
  rw [heq] at h
  unfold finalizeRoute at h
  simp only [hread, if_true, RouteResponse.ok.injEq] at h
  obtain ⟨-, hstat, hsteps, -, -, -, -⟩ := h
  have hflag : env.executeResult.isSome = true := by
    rw [← routeAfterExecute_onchain_executed env,
      ← railStep_onchain_executed env pr (routeAfterExecute env), hsteps, hexec]
  obtain ⟨hs, hhs⟩ := Option.isSome_iff_exists.mp hflag
  have := midState_status_of_exec env pr hs hhs
  rw [hstat] at this
  exact this

/-- C1 witness: applying the amended theorem to the rail-skip run. -/
theorem c1_amended_witness :
    ((Status.ONCHAIN_PAID = .ONCHAIN_PAID ∨ Status.ONCHAIN_PAID = .PAID ∨
      Status.ONCHAIN_PAID = .RAIL_PROCESSING) ∧
     Status.ONCHAIN_PAID ≠ .FAILED ∧
     (railSkipEnv.railCreate.isSome = true →
       Status.ONCHAIN_PAID = .ONCHAIN_PAID ∨ Status.ONCHAIN_PAID = .PAID)) :=
  @c1_amended railSkipEnv (some sampleBody) true .ONCHAIN_PAID
    { payroll_created := true, payments_created := true, treasury_checked := true,
      onchain_requested := true, onchain_executed := true, rail_processed := false }
    (some [.railNotConfigured]) (some ["0xAAA"]) (some ["0xBBB"]) none
    (by decide) (by decide)

/-- C2 counterexample: on the unhandled-exception path the outer catch sets
only the payroll to FAILED, leaving every payment at PAID, so payments do
not match their parent payroll after that transition. -/
theorem c2_counterexample :
    (processPaymentHandler crashPaidEnv (some sampleBody)).db =
      some { payroll := .FAILED, payments := some .PAID } ∧
    some Status.PAID ≠ some Status.FAILED := by
  decide

/-- C2 (amended): every run that reaches the 200 response (no unhandled
exception) ends with every payment row at exactly its parent payroll's
status; only the best-effort FAILED transition of the outer exception
handler updates the payroll alone. -/
theorem c2_amended (env : RouteEnv) (body : Option PaymentRequest)
    {success : Bool} {status : Status} {steps : Steps}
    {errs : Option (List StepErr)} {rtx etx : Option (List String)}
    {rst : Option String}
    (h : (processPaymentHandler env body).response =
      .ok success status steps errs rtx etx rst)
    (d : DbState)
    (hdb : (processPaymentHandler env body).db = some d) :
    d.payments = some d.payroll := by
  obtain ⟨pr, hbody, hread, heq⟩ := response_ok_inversion env body h
  rw [heq] at hdb
  unfold finalizeRoute at hdb
  simp only [hread, if_true, Option.some.injEq] at hdb
  rw [← hdb]
  exact midState_lockstep env pr

/-- C2 witness: applying the amended theorem to the fully successful run. -/
theorem c2_amended_witness : (some Status.PAID : Option Status) = some Status.PAID :=
  @c2_amended railPaidEnv (some sampleBody) true .PAID
    { payroll_created := true, payments_created := true, treasury_checked := true,
      onchain_requested := true, onchain_executed := true, rail_processed := true }
    none (some ["0xAAA"]) (some ["0xBBB"]) (some "PAID")
    (by decide) { payroll := .PAID, payments := some .PAID } (by decide)

/-- C3: when on-chain execution succeeded and the rail accounts do not
resolve, the rail call is never made, the skip entry is recorded in the
errors array with the rail step flag left false, the final status is
ONCHAIN_PAID and the response is an overall success. The ONCHAIN_PAID write
comes from the spec-modelled executePayrollPayments of contractHook. -/
theorem c3_rail_skip (env : RouteEnv) (pr : PaymentRequest)
    {success : Bool} {status : Status} {steps : Steps}
    {errs : Option (List StepErr)} {rtx etx : Option (List String)}
    {rst : Option String}
    (h : (processPaymentHandler env (some pr)).response =
      .ok success status steps errs rtx etx rst)
    (hs : List String) (hexec : env.executeResult = some hs)
    (hcfg : railConfigured env pr = false) :
    status = .ONCHAIN_PAID ∧
    steps.rail_processed = false ∧
    (∃ l, errs = some l ∧ StepErr.railNotConfigured ∈ l) ∧
    ExtCall.railCreate ∉ (processPaymentHandler env (some pr)).trace ∧
    success = true := by
  obtain ⟨pr2, hbody, hread, heq⟩ := response_ok_inversion env (some pr) h
  rw [Option.some.injEq] at hbody
  subst hbody
  rw [heq] at h
  unfold finalizeRoute at h
  simp only [hread, if_true, RouteResponse.ok.injEq] at h
  obtain ⟨hsucc, hstat, hsteps, herrs, -, -, -⟩ := h
  have hskip := railStep_skip env pr (routeAfterExecute env) hcfg
  have hErrsNonempty :
      (railStep env pr (routeAfterExecute env)).errors.isEmpty = false := by
    rw [hskip]
    simp
  constructor
  · rw [← hstat, hskip]
    have := routeAfterExecute_db_of_exec env hs hexec
    simp [this]
  constructor
  · rw [← hsteps, hskip]
    simpa using routeAfterExecute_rail_processed env
  constructor
  · refine ⟨(railStep env pr (routeAfterExecute env)).errors, ?_, ?_⟩
    · rw [← herrs, hErrsNonempty]
      simp
    · rw [hskip]
      simp
  constructor
  · rw [heq]
    unfold finalizeRoute
    simp only [hread, if_true]
    rw [hskip]
    simp [routeAfterExecute_trace env]
  · have hexecFlag :
        (railStep env pr (routeAfterExecute env)).steps.onchain_executed = true := by
      rw [railStep_onchain_executed, routeAfterExecute_onchain_executed, hexec]
      rfl
    rw [← hsucc, hexecFlag]
    simp

/-- C3 witness: the rail-skip run with on-chain execution succeeded. -/
theorem c3_rail_skip_witness :
    Status.ONCHAIN_PAID = .ONCHAIN_PAID ∧
    false = false ∧
    (∃ l, (some [StepErr.railNotConfigured] : Option (List StepErr)) = some l ∧
      StepErr.railNotConfigured ∈ l) ∧
    ExtCall.railCreate ∉ (processPaymentHandler railSkipEnv (some sampleBody)).trace ∧
    true = true :=
  @c3_rail_skip railSkipEnv sampleBody true .ONCHAIN_PAID
    { payroll_created := true, payments_created := true, treasury_checked := true,
      onchain_requested := true, onchain_executed := true, rail_processed := false }
    (some [.railNotConfigured]) (some ["0xAAA"]) (some ["0xBBB"]) none
    (by decide) ["0xBBB"] (by decide) (by decide)

/-- C10: for every run that reaches the 200 response, the top-level success
field is true exactly when the execute step completed, or the rail step
completed, or the request step completed with an empty accumulated-errors
list. -/
theorem c10_success_formula (env : RouteEnv) (body : Option PaymentRequest)
    {success : Bool} {status : Status} {steps : Steps}
    {errs : Option (List StepErr)} {rtx etx : Option (List String)}
    {rst : Option String}
    (h : (processPaymentHandler env body).response =
      .ok success status steps errs rtx etx rst) :
    success = true ↔
      (steps.onchain_executed = true ∨ steps.rail_processed = true ∨
       (steps.onchain_requested = true ∧ errs = none)) := by
  obtain ⟨pr, hbody, hread, heq⟩ := response_ok_inversion env body h
  rw [heq] at h
  unfold finalizeRoute at h
  simp only [hread, if_true, RouteResponse.ok.injEq] at h
  obtain ⟨hsucc, -, hsteps, herrs, -, -, -⟩ := h
  subst hsucc hsteps herrs
  cases hE : (railStep env pr (routeAfterExecute env)).errors.isEmpty
  · simp [hE]
  · simp [hE]
    tauto

/-- C10 witness: the fully successful run. -/
theorem c10_success_formula_witness :
    true = true ↔
      (true = true ∨ true = true ∨
       (true = true ∧ (none : Option (List StepErr)) = none)) :=
  @c10_success_formula railPaidEnv (some sampleBody) true .PAID
    { payroll_created := true, payments_created := true, treasury_checked := true,
      onchain_requested := true, onchain_executed := true, rail_processed := true }
    none (some ["0xAAA"]) (some ["0xBBB"]) (some "PAID") (by decide)

/-- The final read and response step preserves the trace of external calls. -/
theorem finalizeRoute_trace (env : RouteEnv) (s : MidState) :
    (finalizeRoute env s).trace = s.trace := by
  unfold finalizeRoute
  cases env.finalReadOk <;> simp

/-- With resolved rail accounts the rail call is always made. -/
theorem railStep_trace_configured (env : RouteEnv) (pr : PaymentRequest)
    (s : MidState) (hcfg : railConfigured env pr = true) :
    (railStep env pr s).trace = s.trace ++ [.railCreate] := by
  unfold railStep
  cases env.railCreate <;> simp [hcfg]

/-- The rail step only appends to the errors array. -/
theorem railStep_errors_mono (env : RouteEnv) (pr : PaymentRequest)
    (s : MidState) (e : StepErr) (he : e ∈ s.errors) :
    e ∈ (railStep env pr s).errors := by
  unfold railStep
  cases railConfigured env pr <;> cases env.railCreate <;> simp [he]

/-- A failed request call leaves its error entry in the accumulated list. -/
theorem routeAfterExecute_request_error (env : RouteEnv)
    (h : env.requestResult = none) :
    StepErr.exn "onchain_requested" ∈ (routeAfterExecute env).errors := by
  unfold routeAfterExecute executeStep requestStep treasuryStep afterCreate
    executePayrollPayments requestPayrollPayments
  rw [h]
  cases env.executeResult <;> cases env.treasuryOk <;> simp

/-- On a validated body with successful creation steps, the handler is the
finalize step over the full pipeline state. -/
theorem processPaymentHandler_run (env : RouteEnv) (pr : PaymentRequest)
    (c : Customer) (p : PaymentInfo)
    (hcu : pr.customer = some c) (hpa : pr.payment = some p)
    (hfn : ¬c.first_name = "") (hln : ¬c.last_name = "") (hamt : 0 < p.amount)
    (hc1 : env.createPayrollOk = true) (hc2 : env.createPaymentsOk = true) :
    processPaymentHandler env (some pr) =
      finalizeRoute env (railStep env pr (routeAfterExecute env)) := by
  have hA : ¬p.amount ≤ 0 := by omega
  simp [processPaymentHandler, hcu, hpa, hfn, hln, hA, hc1, hc2]

/-- C9: a payroll-processing request whose body fails validation (missing
body, customer or payment, blank customer names, or a non-positive amount)
is answered 400 with no payroll or payment record created and no external
call made. -/
theorem c9_validation_rejects (env : RouteEnv) (body : Option PaymentRequest)
    (h : validBody body = false) :
    processPaymentHandler env body =
      { response := .badRequest, db := none, trace := [] } := by
  cases body with
  | none => rfl
  | some pr =>
    rcases hcu : pr.customer with _ | c
    · simp [processPaymentHandler, hcu]
    rcases hpa : pr.payment with _ | p
    · simp [processPaymentHandler, hcu, hpa]
    by_cases h1 : c.first_name = ""
    · simp [processPaymentHandler, hcu, hpa, h1]
    by_cases h2 : c.last_name = ""
    · simp [processPaymentHandler, hcu, hpa, h1, h2]
    by_cases h3 : p.amount ≤ 0
    · simp [processPaymentHandler, hcu, hpa, h1, h2, h3]
    · exfalso
      have h4 : (0 : Int) < p.amount := by omega
      simp [validBody, hcu, hpa, h1, h2, h4] at h

/-- A request body with a zero payment amount. -/
def zeroAmountBody : PaymentRequest :=
  { sampleBody with
    payment := some { amount := 0, currency := some "USD", recipient := none } }

/-- C9 witness: the zero-amount body is rejected before any effect. -/
theorem c9_validation_rejects_witness :
    processPaymentHandler railSkipEnv (some zeroAmountBody) =
      { response := .badRequest, db := none, trace := [] } :=
  c9_validation_rejects railSkipEnv (some zeroAmountBody) (by decide)

/-- Environment of a run whose on-chain request call throws while everything
else would succeed. -/
def requestFailEnv : RouteEnv := { railSkipEnv with requestResult := none }

/-- C4 counterexample: when the on-chain request call fails, the integrated
route does not abort — the execute call is still made and succeeds
(onchain_executed = true, the execute transaction hash is recorded) and the
payroll ends ONCHAIN_PAID, not FAILED. -/
theorem c4_counterexample :
    (processPaymentHandler requestFailEnv (some sampleBody)).trace =
      [.treasuryCheck, .requestPayments, .executePayments] ∧
    (processPaymentHandler requestFailEnv (some sampleBody)).response =
      .ok true .ONCHAIN_PAID
        { payroll_created := true, payments_created := true,
          treasury_checked := true, onchain_requested := false,
          onchain_executed := true, rail_processed := false }
        (some [.exn "onchain_requested", .railNotConfigured])
        none (some ["0xBBB"]) none ∧
    (processPaymentHandler requestFailEnv (some sampleBody)).db =
      some { payroll := .ONCHAIN_PAID, payments := some .ONCHAIN_PAID } := by
  decide

/-- C4 (amended): in the demo pipeline (executePayrollDemo) a failed on-chain
request call aborts the run — the error is rethrown, no execute or rail call
is attempted, and the spec-modelled route-level handler marks the payroll
FAILED; in the integrated payment route the failure is instead recorded in
the errors array and the run proceeds to the execute and rail steps. -/
theorem c4_amended (denv : DemoEnv) (hdreq : denv.requestResult = none)
    (env : RouteEnv) (pr : PaymentRequest) (c : Customer) (p : PaymentInfo)
    (hcu : pr.customer = some c) (hpa : pr.payment = some p)
    (hfn : ¬c.first_name = "") (hln : ¬c.last_name = "") (hamt : 0 < p.amount)
    (hc1 : env.createPayrollOk = true) (hc2 : env.createPaymentsOk = true)
    (hreq : env.requestResult = none) :
    (executePayrollDemo denv).aborted = true ∧
    (executePayrollDemo denv).trace = [.treasuryCheck, .requestPayments] ∧
    (runPayrollDemoRoute denv).db.payroll = .FAILED ∧
    ExtCall.executePayments ∈ (processPaymentHandler env (some pr)).trace ∧
    StepErr.exn "onchain_requested" ∈
      (railStep env pr (routeAfterExecute env)).errors := by
  refine ⟨?_, ?_, ?_, ?_, ?_⟩
  · simp [executePayrollDemo, requestPayrollPayments, hdreq]
  · simp [executePayrollDemo, requestPayrollPayments, hdreq]
  · simp [runPayrollDemoRoute, executePayrollDemo, requestPayrollPayments,
      hdreq, setPayrollStatus]
  · rw [processPaymentHandler_run env pr c p hcu hpa hfn hln hamt hc1 hc2,
      finalizeRoute_trace]
    cases hcfg : railConfigured env pr
    · rw [railStep_skip env pr _ hcfg]
      simp [routeAfterExecute_trace env]
    · rw [railStep_trace_configured env pr _ hcfg]
      simp [routeAfterExecute_trace env]
  · exact railStep_errors_mono env pr _ _
      (routeAfterExecute_request_error env hreq)

/-- A demo environment whose on-chain request call throws. -/
def demoRequestFailEnv : DemoEnv :=
  { treasuryOk := true, requestResult := none,
    executeResult := some ["0xE1"], railCreate := none }

/-- C4 witness: the amended theorem applied to concrete failing-request
runs of both pipelines. -/
theorem c4_amended_witness :
    (executePayrollDemo demoRequestFailEnv).aborted = true ∧
    (executePayrollDemo demoRequestFailEnv).trace =
      [.treasuryCheck, .requestPayments] ∧
    (runPayrollDemoRoute demoRequestFailEnv).db.payroll = .FAILED ∧
    ExtCall.executePayments ∈
      (processPaymentHandler requestFailEnv (some sampleBody)).trace ∧
    StepErr.exn "onchain_requested" ∈
      (railStep requestFailEnv sampleBody (routeAfterExecute requestFailEnv)).errors :=
  c4_amended demoRequestFailEnv (by decide) requestFailEnv sampleBody
    { first_name := "Ada", last_name := "Lovelace",
      email_address := "ada@example.com" }
    { amount := 50000, currency := some "USD", recipient := none }
    (by decide) (by decide) (by decide) (by decide) (by decide)
    (by decide) (by decide) (by decide)

/-- C5: a successful execute call moves the payroll and all its payments to
ONCHAIN_PAID in the state handed to the rail step (route: via the
spec-modelled executePayrollPayments; demo: lines 92-102 guarded by a
returned non-empty hash list); a failed execute call leaves the on-chain
flag false and the run still proceeds to the rail call in both pipelines. -/
theorem c5_exec_transition
    (env1 : RouteEnv) (hs1 : List String) (h1 : env1.executeResult = some hs1)
    (env2 : RouteEnv) (pr : PaymentRequest) (c : Customer) (p : PaymentInfo)
    (hcu : pr.customer = some c) (hpa : pr.payment = some p)
    (hfn : ¬c.first_name = "") (hln : ¬c.last_name = "") (hamt : 0 < p.amount)
    (hc1 : env2.createPayrollOk = true) (hc2 : env2.createPaymentsOk = true)
    (hcfg : railConfigured env2 pr = true)
    (h2 : env2.executeResult = none)
    (denv1 : DemoEnv) (db1 : DbState) (hs3 : List String)
    (h3 : denv1.executeResult = some hs3) (hne : ¬hs3 = [])
    (denv2 : DemoEnv) (rh : List String) (h4 : denv2.requestResult = some rh)
    (h5 : denv2.executeResult = none) :
    (routeAfterExecute env1).db =
      { payroll := .ONCHAIN_PAID, payments := some .ONCHAIN_PAID } ∧
    (routeAfterExecute env1).steps.onchain_executed = true ∧
    (routeAfterExecute env2).steps.onchain_executed = false ∧
    ExtCall.railCreate ∈ (processPaymentHandler env2 (some pr)).trace ∧
    (demoExecutePhase denv1 db1).1 = true ∧
    (demoExecutePhase denv1 db1).2.payroll = .ONCHAIN_PAID ∧
    (demoExecutePhase denv1 db1).2.payments =
      db1.payments.map (fun _ => .ONCHAIN_PAID) ∧
    (executePayrollDemo denv2).aborted = false ∧
    ExtCall.railCreate ∈ (executePayrollDemo denv2).trace := by
  have hsE : hs3.isEmpty = false := by
    cases hs3 with
    | nil => exact absurd rfl hne
    | cons a l => rfl
  refine ⟨routeAfterExecute_db_of_exec env1 hs1 h1, ?_, ?_, ?_, ?_, ?_, ?_, ?_, ?_⟩
  · rw [routeAfterExecute_onchain_executed, h1]
    rfl
  · rw [routeAfterExecute_onchain_executed, h2]
    rfl
  · rw [processPaymentHandler_run env2 pr c p hcu hpa hfn hln hamt hc1 hc2,
      finalizeRoute_trace, railStep_trace_configured env2 pr _ hcfg]
    simp
  · simp [demoExecutePhase, executePayrollPayments, h3, hsE]
  · simp [demoExecutePhase, executePayrollPayments, h3, hsE,
      updatePayrollPaymentsStatus, setPayrollStatus]
  · simp only [demoExecutePhase, executePayrollPayments, h3, hsE,
      updatePayrollPaymentsStatus, setPayrollStatus]
    cases db1.payments <;> simp
  · simp [executePayrollDemo, requestPayrollPayments, h4, demoRailPhase,
      demoExecutePhase, executePayrollPayments, h5]
    cases denv2.railCreate <;> simp
  · simp [executePayrollDemo, requestPayrollPayments, h4, demoRailPhase,
      demoExecutePhase, executePayrollPayments, h5]
    cases denv2.railCreate <;> simp

/-- Environment of a route run whose execute call throws and whose rail
accounts are configured. -/
def executeFailEnv : RouteEnv :=
  { railPaidEnv with executeResult := none }

/-- A demo environment where every call succeeds and the rail reports PAID. -/
def demoPaidEnv : DemoEnv :=
  { treasuryOk := true, requestResult := some ["0xA1"],
    executeResult := some ["0xE1"],
    railCreate := some { id := "wd-9", status := "PAID" } }

/-- A demo environment whose execute call throws. -/
def demoExecuteFailEnv : DemoEnv :=
  { demoPaidEnv with executeResult := none }

/-- C5 witness: the exec-transition theorem applied to concrete runs of both
pipelines. -/
theorem c5_exec_transition_witness :
    (routeAfterExecute railSkipEnv).db =
      { payroll := .ONCHAIN_PAID, payments := some .ONCHAIN_PAID } ∧
    (routeAfterExecute railSkipEnv).steps.onchain_executed = true ∧
    (routeAfterExecute executeFailEnv).steps.onchain_executed = false ∧
    ExtCall.railCreate ∈
      (processPaymentHandler executeFailEnv (some sampleBody)).trace ∧
    (demoExecutePhase demoPaidEnv
      { payroll := .ONCHAIN_REQUESTED, payments := some .ONCHAIN_REQUESTED }).1 = true ∧
    (demoExecutePhase demoPaidEnv
      { payroll := .ONCHAIN_REQUESTED, payments := some .ONCHAIN_REQUESTED }).2.payroll =
      .ONCHAIN_PAID ∧
    (demoExecutePhase demoPaidEnv
      { payroll := .ONCHAIN_REQUESTED, payments := some .ONCHAIN_REQUESTED }).2.payments =
      (some Status.ONCHAIN_REQUESTED).map (fun _ => .ONCHAIN_PAID) ∧
    (executePayrollDemo demoExecuteFailEnv).aborted = false ∧
    ExtCall.railCreate ∈ (executePayrollDemo demoExecuteFailEnv).trace :=
  c5_exec_transition railSkipEnv ["0xBBB"] (by decide)
    executeFailEnv sampleBody
    { first_name := "Ada", last_name := "Lovelace",
      email_address := "ada@example.com" }
    { amount := 50000, currency := some "USD", recipient := none }
    (by decide) (by decide) (by decide) (by decide) (by decide)
    (by decide) (by decide) (by decide) (by decide)
    demoPaidEnv
    { payroll := .ONCHAIN_REQUESTED, payments := some .ONCHAIN_REQUESTED }
    ["0xE1"] (by decide) (by decide)
    demoExecuteFailEnv ["0xA1"] (by decide) (by decide)

/-- The meter of the protected payment route, as a concrete catalog entry. -/
def meterFixture : Meter :=
  { id := "payment_process", price := "1", asset := "USDC",
    chain := "avalanche-fuji", description := "Payment processing" }

/-- A production configuration with no bypass condition: NODE_ENV is
production, the facilitator URL is not a mock endpoint, and the allow-demo
flag is off. -/
def prodConfig : X402Config :=
  { nodeEnvProduction := true, facilitatorUrlMock := false,
    allowDemoTokenFlag := false }

/-- A development configuration whose only bypass condition is the
non-production environment. -/
def devConfig : X402Config :=
  { nodeEnvProduction := false, facilitatorUrlMock := false,
    allowDemoTokenFlag := false }

/-- C6 counterexample: in production with no bypass condition
(allowDemoToken = false), a thrown facilitator call still makes
validatePaymentDetailed return valid for the demo token — the
degrade-to-valid fallback of the detailed validator checks only the token,
not the bypass conditions. -/
theorem c6_counterexample :
    (validatePaymentDetailed prodConfig (fun _ => some meterFixture)
      (.threw "ECONNREFUSED") "demo-token" "payment_process").result.valid = true ∧
    allowDemoToken prodConfig = false := by
  decide

/-- C6 (amended): when the facilitator call throws, validateXPaymentHeader
returns valid exactly for the demo token under the bypass conditions, while
validatePaymentDetailed returns valid exactly for the demo token whenever the
mock short-circuit applied or the meter resolved — its fallback is not gated
by the bypass conditions. -/
theorem c6_amended (cfg : X402Config) (reg : String → Option Meter)
    (msg : String) (headerValue meterId : String) :
    ((validateXPaymentHeader cfg reg (.threw msg) headerValue meterId).valid = true ↔
      (headerValue = "demo-token" ∧ allowDemoToken cfg = true)) ∧
    ((validatePaymentDetailed cfg reg (.threw msg) headerValue meterId).result.valid = true ↔
      (headerValue = "demo-token" ∧
        (cfg.facilitatorUrlMock = true ∨ (reg meterId).isSome = true))) := by
  constructor
  · unfold validateXPaymentHeader
    by_cases hd : headerValue = "demo-token" <;>
      cases ha : allowDemoToken cfg <;>
      cases hr : reg meterId <;> simp [hd, ha]
  · unfold validatePaymentDetailed
    by_cases hd : headerValue = "demo-token" <;>
      cases hm : cfg.facilitatorUrlMock <;>
      cases hr : reg meterId <;> simp [hd, hm]

/-- C7 counterexample: with the non-production bypass condition holding
(allowDemoToken = true) but a non-mock facilitator URL, the demo token does
not short-circuit validatePaymentDetailed — the facilitator network call is
made and its negative verdict is returned. -/
theorem c7_counterexample :
    validatePaymentDetailed devConfig (fun _ => some meterFixture)
      (.ok { valid := false, payer := none, amount := none,
             error := some "INVALID_SIGNATURE" })
      "demo-token" "payment_process" =
    { result := { valid := false, error := some "INVALID_SIGNATURE",
                  payer := none, amount := none },
      facilitatorCalled := true } ∧
    allowDemoToken devConfig = true := by
  decide

/-- C7 (amended): validateXPaymentHeader accepts the demo token under any of
the three bypass conditions with no network call and regardless of the
meter; validatePaymentDetailed short-circuits before the network only under
the mock-facilitator condition. -/
theorem c7_amended (cfg : X402Config) (reg : String → Option Meter)
    (fac : FacCall) (meterId : String)
    (h : allowDemoToken cfg = true)
    (cfg2 : X402Config) (reg2 : String → Option Meter)
    (fac2 : FacCall) (meterId2 : String)
    (h2 : cfg2.facilitatorUrlMock = true) :
    validateXPaymentHeader cfg reg fac "demo-token" meterId =
      { valid := true, facilitatorCalled := false } ∧
    validatePaymentDetailed cfg2 reg2 fac2 "demo-token" meterId2 =
      { result := { valid := true, error := none,
                    payer := some "0xDemoPayerAddress", amount := some "1" },
        facilitatorCalled := false } := by
  constructor
  · unfold validateXPaymentHeader
    simp [h]
  · unfold validatePaymentDetailed
    simp [h2]

/-- A configuration with every bypass condition on (mock endpoint, dev, and
allow-demo flag). -/
def mockConfig : X402Config :=
  { nodeEnvProduction := false, facilitatorUrlMock := true,
    allowDemoTokenFlag := true }

/-- C7 witness: the amended theorem at an all-bypass and a mock
configuration, over an empty registry. -/
theorem c7_amended_witness :
    validateXPaymentHeader devConfig (fun _ => none) (.threw "down") "demo-token"
      "missing_meter" = { valid := true, facilitatorCalled := false } ∧
    validatePaymentDetailed mockConfig (fun _ => none) (.threw "down")
      "demo-token" "missing_meter" =
      { result := { valid := true, error := none,
                    payer := some "0xDemoPayerAddress", amount := some "1" },
        facilitatorCalled := false } :=
  c7_amended devConfig (fun _ => none) (.threw "down") "missing_meter" (by decide)
    mockConfig (fun _ => none) (.threw "down") "missing_meter" (by decide)

/-- Environment of a facilitator /validate request whose configuration and
verify call would all succeed. -/
def endpointEnvFixture : ValidateEndpointEnv :=
  { proofParses := true, payToConfigured := true, facilitatorInitOk := true,
    verify := .ok { isValid := true, payer := some "0xPayer",
                    invalidReason := none } }

/-- C8: when the meter id does not resolve and the proof is not the demo
token under bypass-enabled conditions, validatePaymentDetailed answers
invalid with METER_NOT_FOUND and no facilitator call, and the facilitator
/validate endpoint answers 400 METER_NOT_FOUND before any verify call. -/
theorem c8_meter_not_found (cfg : X402Config) (reg : String → Option Meter)
    (fac : FacCall) (env : ValidateEndpointEnv) (headerValue meterId : String)
    (hreg : reg meterId = none)
    (hnb : ¬(headerValue = "demo-token" ∧ allowDemoToken cfg = true)) :
    validatePaymentDetailed cfg reg fac headerValue meterId =
      { result := { valid := false, error := some "METER_NOT_FOUND",
                    payer := none, amount := none },
        facilitatorCalled := false } ∧
    validateEndpoint env reg meterId =
      { status := 400, valid := false, error := some "METER_NOT_FOUND",
        verifyCalled := false } := by
  constructor
  · unfold validatePaymentDetailed
    by_cases hd : headerValue = "demo-token"
    · have hmo : cfg.facilitatorUrlMock = false := by
        cases hmo : cfg.facilitatorUrlMock
        · rfl
        · exact absurd ⟨hd, by unfold allowDemoToken; simp [hmo]⟩ hnb
      simp [hd, hmo, hreg]
    · simp [hd, hreg]
  · unfold validateEndpoint
    rw [hreg]

/-- C8 witness: an unknown meter with a non-bypass proof, in production. -/
theorem c8_meter_not_found_witness :
    validatePaymentDetailed prodConfig (fun _ => none) (.threw "down")
      "0xSignedProof" "unknown_meter" =
      { result := { valid := false, error := some "METER_NOT_FOUND",
                    payer := none, amount := none },
        facilitatorCalled := false } ∧
    validateEndpoint endpointEnvFixture (fun _ => none) "unknown_meter" =
      { status := 400, valid := false, error := some "METER_NOT_FOUND",
        verifyCalled := false } :=
  c8_meter_not_found prodConfig (fun _ => none) (.threw "down")
    endpointEnvFixture "0xSignedProof" "unknown_meter" rfl (by decide)

end SnowRail
